import Mathlib

/-!
Verification of the order-book aggregation service.

The development shallowly embeds the server-side aggregation engine:
the shared value types (`TradedPair`, `Order`, `Level`, `Summary`), the
comparators `Level.sort_as_asks` / `Level.sort_as_bids`, the depth helper
`sort_orders_to_depth`, the pure merge `merge_orderbooks_into_summary`,
the aggregator connect phase and running loop, the subscription registry
front-end (`book_summary`), and the per-subscriber forwarder
(`handle_subscription_stream`).

Numeric prices and amounts (`f64` in the source) are modelled over `ℚ`:
the service only compares and subtracts them, and every concrete value in
the claims is a small integer, so the embedding is exact on the inputs
considered.  A Rust expression that can panic (index/slice out of range)
is modelled by an `Option` result, `none` standing for the panic.
Rust's stable `sort_by` with a comparator `c` is modelled by
`List.insertionSort` with the relation `fun a b => c a b ≠ .gt`: both are
stable sorts, and a stable sort with respect to a total preorder has a
unique result, so the model agrees with the source on every input.
-/

namespace OrderBookService

/-- A traded pair of symbols, as in the `orderbook` proto schema. -/
structure TradedPair where
  first : String
  second : String
deriving DecidableEq

/-- Display form of a pair, from `impl Display for TradedPair`: `"{first}-{second}"`. -/
def TradedPair.display (p : TradedPair) : String :=
  p.first ++ "-" ++ p.second

/-- Boolean structural equality on a pair, as derived by `PartialEq` on the
proto-generated struct: both fields must match exactly. -/
def traded_pair_eq (p q : TradedPair) : Bool :=
  p.first == q.first && p.second == q.second

/-- The hand-written `impl Hash for TradedPair` feeds `first` and then `second`
to the hasher state.  The hasher itself is abstracted as a fold function
`hashStr : state → string → state`. -/
def TradedPair.hash_into (hashStr : Nat → String → Nat) (state : Nat) (p : TradedPair) : Nat :=
  hashStr (hashStr state p.first) p.second

/-- A price level annotated with its source exchange (`proto::Level`). -/
structure Level where
  exchange : String
  price : ℚ
  amount : ℚ
deriving DecidableEq

/-- Comparator `Level::sort_as_asks`: Low → High by price; on equal prices,
High → Low by amount. -/
def Level.sort_as_asks (a b : Level) : Ordering :=
  if a.price < b.price then Ordering.lt
  else if a.price > b.price then Ordering.gt
  else if a.amount > b.amount then Ordering.lt
  else if a.amount < b.amount then Ordering.gt
  else Ordering.eq

/-- Comparator `Level::sort_as_bids`: High → Low by price; on equal prices,
High → Low by amount. -/
def Level.sort_as_bids (a b : Level) : Ordering :=
  if a.price > b.price then Ordering.lt
  else if a.price < b.price then Ordering.gt
  else if a.amount > b.amount then Ordering.lt
  else if a.amount < b.amount then Ordering.gt
  else Ordering.eq

/-- Relation induced on asks by Rust's `sort_by(sort_as_asks)`: the sorted
output has `sort_as_asks a b ≠ Greater` on every in-order pair. -/
def askLe (a b : Level) : Prop :=
  a.sort_as_asks b ≠ Ordering.gt

/-- Relation induced on bids by Rust's `sort_by(sort_as_bids)`. -/
def bidLe (a b : Level) : Prop :=
  a.sort_as_bids b ≠ Ordering.gt

instance : DecidableRel askLe :=
  fun a b => inferInstanceAs (Decidable (a.sort_as_asks b ≠ Ordering.gt))

instance : DecidableRel bidLe :=
  fun a b => inferInstanceAs (Decidable (a.sort_as_bids b ≠ Ordering.gt))

/-- The ask ordering as the specification words it: ascending by price, ties
broken by descending amount. -/
def askOrdered (a b : Level) : Prop :=
  a.price < b.price ∨ (a.price = b.price ∧ b.amount ≤ a.amount)

/-- The bid ordering as the specification words it: descending by price, ties
broken by descending amount. -/
def bidOrdered (a b : Level) : Prop :=
  b.price < a.price ∨ (a.price = b.price ∧ b.amount ≤ a.amount)

/-- A raw order from an exchange payload (`exchange::Order`). -/
structure Order where
  price : ℚ
  quantity : ℚ
deriving DecidableEq

/-- The hand-written `impl PartialOrd for Order`: compares `price` only
(always defined, so the source's `.unwrap()` never fires). -/
def Order.cmp_price (a b : Order) : Ordering :=
  if a.price < b.price then Ordering.lt
  else if a.price > b.price then Ordering.gt
  else Ordering.eq

/-- Relation induced on orders by `sort_by(|a, b| a.partial_cmp(b).unwrap())`. -/
def orderLeLowToHigh (a b : Order) : Prop :=
  a.cmp_price b ≠ Ordering.gt

/-- Relation induced on orders by `sort_by(|a, b| b.partial_cmp(a).unwrap())`. -/
def orderLeHighToLow (a b : Order) : Prop :=
  b.cmp_price a ≠ Ordering.gt

instance : DecidableRel orderLeLowToHigh :=
  fun a b => inferInstanceAs (Decidable (a.cmp_price b ≠ Ordering.gt))

instance : DecidableRel orderLeHighToLow :=
  fun a b => inferInstanceAs (Decidable (b.cmp_price a ≠ Ordering.gt))

/-- The `exchange::Ordering` enum selecting a sort direction. -/
inductive SortOrdering where
  | LowToHigh
  | HighToLow
deriving DecidableEq

/-- Embeds `sort_orders_to_depth`: stable-sort the orders in the requested
direction, take the slice `&orders[..depth]`, and tag each order with the
exchange name.  The slice panics when `depth > orders.len()`; the panic is
modelled as `none`. -/
def sort_orders_to_depth (orders : List Order) (ordering : SortOrdering)
    (depth : Nat) (exchange : String) : Option (List Level) :=
  let sorted :=
    match ordering with
    | SortOrdering.LowToHigh => List.insertionSort orderLeLowToHigh orders
    | SortOrdering.HighToLow => List.insertionSort orderLeHighToLow orders
  if depth ≤ sorted.length then
    some ((sorted.take depth).map
      (fun o => { exchange := exchange, price := o.price, amount := o.quantity }))
  else
    none

/-- An order book as the aggregator consumes it: every implementation of the
`OrderBook` trait in the server (the exchange adapters and the test book)
stores raw asks and bids and delegates to `sort_orders_to_depth`. -/
structure OrderBook where
  source : String
  asks : List Order
  bids : List Order
deriving DecidableEq

/-- Trait method `best_asks`: the best `depth` asks, ordered Low → High. -/
def OrderBook.best_asks (ob : OrderBook) (depth : Nat) : Option (List Level) :=
  sort_orders_to_depth ob.asks SortOrdering.LowToHigh depth ob.source

/-- Trait method `best_bids`: the best `depth` bids, ordered High → Low. -/
def OrderBook.best_bids (ob : OrderBook) (depth : Nat) : Option (List Level) :=
  sort_orders_to_depth ob.bids SortOrdering.HighToLow depth ob.source

instance : Inhabited Level :=
  ⟨{ exchange := "", price := 0, amount := 0 }⟩

/-- The aggregated top-of-book value (`proto::Summary`). -/
structure Summary where
  spread : ℚ
  bids : List Level
  asks : List Level
deriving DecidableEq

/-- The loop `for ob in orderbooks { asks.append(&mut ob.best_asks(10)) }`:
concatenates the per-book results, propagating a panic from any book. -/
def collect_best (f : OrderBook → Option (List Level)) :
    List OrderBook → Option (List Level)
  | [] => some []
  | ob :: rest =>
    match f ob, collect_best f rest with
    | some ls, some rest2 => some (ls ++ rest2)
    | _, _ => none

/-- Embeds `merge_orderbooks_into_summary`: gather each book's ten best asks
and bids, stable-sort the concatenations with the two comparators, then build
`Summary { spread: asks[0].price - bids[0].price, asks: asks[..10], bids:
bids[..10] }`.  The indexing and the two slices panic when the sorted vectors
hold fewer than ten levels; the panic is modelled as `none`. -/
def merge_orderbooks_into_summary (orderbooks : List OrderBook) : Option Summary :=
  match collect_best (fun ob => ob.best_asks 10) orderbooks,
        collect_best (fun ob => ob.best_bids 10) orderbooks with
  | some rawAsks, some rawBids =>
    if 10 ≤ (List.insertionSort askLe rawAsks).length
        ∧ 10 ≤ (List.insertionSort bidLe rawBids).length then
      some { spread := (List.insertionSort askLe rawAsks).headI.price
                         - (List.insertionSort bidLe rawBids).headI.price
             asks := (List.insertionSort askLe rawAsks).take 10
             bids := (List.insertionSort bidLe rawBids).take 10 }
    else
      none
  | _, _ => none

/-- The comparator relation used on asks agrees with the specification's
wording of the ask order. -/
theorem askLe_iff (a b : Level) : askLe a b ↔ askOrdered a b := by
  unfold askLe askOrdered Level.sort_as_asks
  split_ifs with h1 h2 h3 h4
  · exact iff_of_true (by simp) (Or.inl h1)
  · refine iff_of_false (by simp) ?_
    rintro (hlt | ⟨he, _⟩)
    · exact lt_asymm h2 hlt
    · exact h2.ne' he
  · exact iff_of_true (by simp)
      (Or.inr ⟨le_antisymm (not_lt.mp h2) (not_lt.mp h1), le_of_lt h3⟩)
  · refine iff_of_false (by simp) ?_
    rintro (hlt | ⟨_, hle⟩)
    · exact h1 hlt
    · exact hle.not_lt h4
  · exact iff_of_true (by simp)
      (Or.inr ⟨le_antisymm (not_lt.mp h2) (not_lt.mp h1), not_lt.mp h4⟩)

/-- The comparator relation used on bids agrees with the specification's
wording of the bid order. -/
theorem bidLe_iff (a b : Level) : bidLe a b ↔ bidOrdered a b := by
  unfold bidLe bidOrdered Level.sort_as_bids
  split_ifs with h1 h2 h3 h4
  · exact iff_of_true (by simp) (Or.inl h1)
  · refine iff_of_false (by simp) ?_
    rintro (hlt | ⟨he, _⟩)
    · exact lt_asymm h2 hlt
    · exact h2.ne he
  · exact iff_of_true (by simp)
      (Or.inr ⟨le_antisymm (not_lt.mp h1) (not_lt.mp h2), le_of_lt h3⟩)
  · refine iff_of_false (by simp) ?_
    rintro (hlt | ⟨_, hle⟩)
    · exact h1 hlt
    · exact hle.not_lt h4
  · exact iff_of_true (by simp)
      (Or.inr ⟨le_antisymm (not_lt.mp h1) (not_lt.mp h2), not_lt.mp h4⟩)

theorem askOrdered_trans (a b c : Level) (hab : askOrdered a b) (hbc : askOrdered b c) :
    askOrdered a c := by
  rcases hab with h1 | ⟨e1, m1⟩
  · rcases hbc with h2 | ⟨e2, m2⟩
    · exact Or.inl (lt_trans h1 h2)
    · exact Or.inl (by rw [← e2]; exact h1)
  · rcases hbc with h2 | ⟨e2, m2⟩
    · exact Or.inl (by rw [e1]; exact h2)
    · exact Or.inr ⟨e1.trans e2, le_trans m2 m1⟩

theorem askOrdered_total (a b : Level) : askOrdered a b ∨ askOrdered b a := by
  rcases lt_trichotomy a.price b.price with h | h | h
  · exact Or.inl (Or.inl h)
  · rcases le_total b.amount a.amount with hm | hm
    · exact Or.inl (Or.inr ⟨h, hm⟩)
    · exact Or.inr (Or.inr ⟨h.symm, hm⟩)
  · exact Or.inr (Or.inl h)

theorem bidOrdered_trans (a b c : Level) (hab : bidOrdered a b) (hbc : bidOrdered b c) :
    bidOrdered a c := by
  rcases hab with h1 | ⟨e1, m1⟩
  · rcases hbc with h2 | ⟨e2, m2⟩
    · exact Or.inl (lt_trans h2 h1)
    · exact Or.inl (by rw [← e2]; exact h1)
  · rcases hbc with h2 | ⟨e2, m2⟩
    · exact Or.inl (by rw [e1]; exact h2)
    · exact Or.inr ⟨e1.trans e2, le_trans m2 m1⟩

theorem bidOrdered_total (a b : Level) : bidOrdered a b ∨ bidOrdered b a := by
  rcases lt_trichotomy a.price b.price with h | h | h
  · exact Or.inr (Or.inl h)
  · rcases le_total b.amount a.amount with hm | hm
    · exact Or.inl (Or.inr ⟨h, hm⟩)
    · exact Or.inr (Or.inr ⟨h.symm, hm⟩)
  · exact Or.inl (Or.inl h)

instance : IsTrans Level askLe :=
  ⟨fun a b c hab hbc => (askLe_iff a c).mpr
    (askOrdered_trans a b c ((askLe_iff a b).mp hab) ((askLe_iff b c).mp hbc))⟩

instance : IsTotal Level askLe :=
  ⟨fun a b => by
    rcases askOrdered_total a b with h | h
    · exact Or.inl ((askLe_iff a b).mpr h)
    · exact Or.inr ((askLe_iff b a).mpr h)⟩

instance : IsTrans Level bidLe :=
  ⟨fun a b c hab hbc => (bidLe_iff a c).mpr
    (bidOrdered_trans a b c ((bidLe_iff a b).mp hab) ((bidLe_iff b c).mp hbc))⟩

instance : IsTotal Level bidLe :=
  ⟨fun a b => by
    rcases bidOrdered_total a b with h | h
    · exact Or.inl ((bidLe_iff a b).mpr h)
    · exact Or.inr ((bidLe_iff b a).mpr h)⟩

/-- Taking the first ten elements of a list of length at least ten keeps the
head. -/
theorem headI_take_ten {l : List Level} (h : 10 ≤ l.length) :
    (l.take 10).headI = l.headI := by
  cases l with
  | nil => simp at h
  | cons x xs => rfl

/-- C1: for every Summary produced by `merge_orderbooks_into_summary` (and
hence every data Summary an Aggregator publishes), the asks are sorted
ascending by price with ties broken by descending amount, the bids are sorted
descending by price with ties broken by descending amount, and both vectors
have length at most ten. -/
theorem merge_summary_sorted_and_depth_bounded
    (obs : List OrderBook) (s : Summary)
    (h : merge_orderbooks_into_summary obs = some s) :
    List.Sorted askOrdered s.asks ∧ List.Sorted bidOrdered s.bids
    ∧ s.asks.length ≤ 10 ∧ s.bids.length ≤ 10 := by
  unfold merge_orderbooks_into_summary at h
  split at h
  · split at h
    · have hs := Option.some.inj h
      subst hs
      refine ⟨?_, ?_, ?_, ?_⟩
      · exact (((List.sorted_insertionSort askLe _).sublist
          (List.take_sublist 10 _)).imp (fun hab => (askLe_iff _ _).mp hab))
      · exact (((List.sorted_insertionSort bidLe _).sublist
          (List.take_sublist 10 _)).imp (fun hab => (bidLe_iff _ _).mp hab))
      · exact List.length_take_le 10 _
      · exact List.length_take_le 10 _
    · exact absurd h (by simp)
  · exact absurd h (by simp)

/-- C3: every Summary the merge returns (hence every data Summary emitted
while the Aggregator runs) has spread equal to the best ask price minus the
best bid price. -/
theorem merge_spread_is_best_ask_minus_best_bid
    (obs : List OrderBook) (s : Summary)
    (h : merge_orderbooks_into_summary obs = some s) :
    s.spread = s.asks.headI.price - s.bids.headI.price := by
  unfold merge_orderbooks_into_summary at h
  split at h
  case _ rawAsks rawBids _ _ =>
    split at h
    case isTrue hlen =>
      have hs := Option.some.inj h
      subst hs
      simp only
      rw [headI_take_ten hlen.1, headI_take_ten hlen.2]
    case isFalse => exact absurd h (by simp)
  case _ => exact absurd h (by simp)

/-- The ten whole-price orders at amount one used by scenario S1 (source `ONE`). -/
def ordersAtOne : List Order :=
  [⟨1, 1⟩, ⟨2, 1⟩, ⟨3, 1⟩, ⟨4, 1⟩, ⟨5, 1⟩, ⟨6, 1⟩, ⟨7, 1⟩, ⟨8, 1⟩, ⟨9, 1⟩, ⟨10, 1⟩]

/-- The ten whole-price orders at amount two used by scenario S1 (source `TWO`). -/
def ordersAtTwo : List Order :=
  [⟨1, 2⟩, ⟨2, 2⟩, ⟨3, 2⟩, ⟨4, 2⟩, ⟨5, 2⟩, ⟨6, 2⟩, ⟨7, 2⟩, ⟨8, 2⟩, ⟨9, 2⟩, ⟨10, 2⟩]

/-- Scenario S1: the book published by source `ONE`. -/
def bookONE : OrderBook :=
  { source := "ONE", asks := ordersAtOne, bids := ordersAtOne }

/-- Scenario S1: the book published by source `TWO`. -/
def bookTWO : OrderBook :=
  { source := "TWO", asks := ordersAtTwo, bids := ordersAtTwo }

/-- The Summary that scenario S1 claims: spread `1 - 10`, asks interleaved
`TWO` before `ONE` ascending, bids interleaved `TWO` before `ONE` descending. -/
def summaryS1 : Summary :=
  { spread := (1 : ℚ) - 10
    bids :=
      [⟨"TWO", 10, 2⟩, ⟨"ONE", 10, 1⟩, ⟨"TWO", 9, 2⟩, ⟨"ONE", 9, 1⟩, ⟨"TWO", 8, 2⟩,
       ⟨"ONE", 8, 1⟩, ⟨"TWO", 7, 2⟩, ⟨"ONE", 7, 1⟩, ⟨"TWO", 6, 2⟩, ⟨"ONE", 6, 1⟩]
    asks :=
      [⟨"TWO", 1, 2⟩, ⟨"ONE", 1, 1⟩, ⟨"TWO", 2, 2⟩, ⟨"ONE", 2, 1⟩, ⟨"TWO", 3, 2⟩,
       ⟨"ONE", 3, 1⟩, ⟨"TWO", 4, 2⟩, ⟨"ONE", 4, 1⟩, ⟨"TWO", 5, 2⟩, ⟨"ONE", 5, 1⟩] }

/-- C2: merging the two S1 books returns exactly the claimed Summary — in
either iteration order of the per-pair book map — and its spread is `-9`. -/
theorem merge_scenario_s1 :
    merge_orderbooks_into_summary [bookONE, bookTWO] = some summaryS1
    ∧ merge_orderbooks_into_summary [bookTWO, bookONE] = some summaryS1
    ∧ summaryS1.spread = -9 :=
  ⟨rfl, rfl, by norm_num [summaryS1]⟩

/-- Witness for C1 at the S1 scenario. -/
theorem merge_summary_sorted_and_depth_bounded_witness :
    List.Sorted askOrdered summaryS1.asks ∧ List.Sorted bidOrdered summaryS1.bids
    ∧ summaryS1.asks.length ≤ 10 ∧ summaryS1.bids.length ≤ 10 :=
  merge_summary_sorted_and_depth_bounded [bookONE, bookTWO] summaryS1 rfl

/-- Witness for C3 at the S1 scenario. -/
theorem merge_spread_is_best_ask_minus_best_bid_witness :
    summaryS1.spread = summaryS1.asks.headI.price - summaryS1.bids.headI.price :=
  merge_spread_is_best_ask_minus_best_bid [bookONE, bookTWO] summaryS1 rfl

/-- C4: on input books that carry fewer than ten levels in total (here one ask
and one bid each), the merge does not signal `InsufficientDepth` — the slice
`&orders[..depth]` inside `best_asks(10)` panics (modelled `none`), which
aborts the aggregator task instead of skipping the tick. -/
theorem merge_insufficient_depth_panics :
    merge_orderbooks_into_summary
        [{ source := "A", asks := [⟨1, 1⟩], bids := [⟨2, 1⟩] },
         { source := "B", asks := [⟨1, 1⟩], bids := [⟨2, 1⟩] }] = none
    ∧ merge_orderbooks_into_summary [] = none := by
  refine ⟨by decide, by decide⟩

/-- C5: `sort_orders_to_depth` with a caller-supplied depth larger than the
number of orders in the book panics (modelled `none`) instead of returning
`min(depth, available)` levels; with depth within bounds it returns exactly
`depth` levels. -/
theorem sort_orders_to_depth_panics_on_shallow_book :
    sort_orders_to_depth [⟨1, 1⟩] SortOrdering.LowToHigh 10 "EXAMPLE" = none
    ∧ (sort_orders_to_depth [⟨1, 1⟩] SortOrdering.LowToHigh 1 "EXAMPLE").isSome = true := by
  refine ⟨by decide, by decide⟩

/-- A message on the aggregator's broadcast bus
(`Result<Summary, Arc<Error>>`), errors carried as their display string. -/
inductive BusMessage where
  | ok (s : Summary)
  | err (msg : String)
deriving DecidableEq

/-- The retry bound in `OrderbookAggregator::start` (`max_attempts`). -/
def max_attempts : Nat := 5

/-- Whether the per-exchange retry loop connects: `stream_order_book_for_pair`
is called up to `max_attempts` times (stopping at the first success); the
exchange is modelled by the outcome of its successive calls. -/
def exchange_connects (calls : Nat → Except String Unit) : Bool :=
  ((List.range max_attempts).map calls).any (fun r =>
    match r with
    | Except.ok _ => true
    | Except.error _ => false)

/-- Number of streams pushed onto the `SelectAll` after the connect phase
(`orderbook_stream.len()`). -/
def connected_count (exchanges : List (Nat → Except String Unit)) : Nat :=
  (exchanges.filter (fun ex => exchange_connects ex)).length

/-- The error message built when fewer than two exchanges connect
(`format!("Unable to connect to more than one exchange, aggregation not
possible for {}", self.traded_pair)`). -/
def insufficient_sources_msg (pair : TradedPair) : String :=
  "Unable to connect to more than one exchange, aggregation not possible for "
    ++ pair.display

/-- The error message sent when a source drops mid-run. -/
def disconnect_msg : String :=
  "Exchange disconnected, leaving only one connection - unable to aggregate, exiting"

/-- One delivery from the multiplexed order-book stream, together with the
number of still-live source streams observed at that point
(`orderbook_stream.len()`). -/
structure TickEvent where
  live_sources : Nat
  book : OrderBook

/-- `orderbooks.insert(orderbook.source(), ...)`: the per-source map as an
association list keyed by source name, insertion overwriting. -/
def insert_book (books : List (String × OrderBook)) (ob : OrderBook) :
    List (String × OrderBook) :=
  books.filter (fun kv => kv.fst != ob.source) ++ [(ob.source, ob)]

/-- The `Running` loop of `OrderbookAggregator::start`.  Each event delivers
one book; fewer than two live sources emits one disconnect error and returns;
once the map holds books from more than one source it is drained into the
merge and the Summary is broadcast.  A merge panic (`none`) kills the task:
emissions simply stop.  The drain order of the `HashMap` is unspecified in
Rust; the model drains in insertion order. -/
def run_loop (books : List (String × OrderBook)) :
    List TickEvent → List BusMessage
  | [] => []
  | ev :: rest =>
    if ev.live_sources < 2 then
      [BusMessage.err disconnect_msg]
    else
      if 1 < (insert_book books ev.book).length then
        match merge_orderbooks_into_summary ((insert_book books ev.book).map Prod.snd) with
        | some s => BusMessage.ok s :: run_loop [] rest
        | none => []
      else
        run_loop (insert_book books ev.book) rest

/-- Everything `OrderbookAggregator::start` sends on the broadcast bus: the
connect phase counts connected exchanges; below two, exactly one error is
emitted and the task returns; otherwise the running loop consumes the
events. -/
def aggregator_start_emissions (exchanges : List (Nat → Except String Unit))
    (pair : TradedPair) (events : List TickEvent) : List BusMessage :=
  if connected_count exchanges < 2 then
    [BusMessage.err (insufficient_sources_msg pair)]
  else
    run_loop [] events

/-- gRPC status codes the server emits. -/
inductive StatusCode where
  | invalid_argument
  | internal
  | unavailable
deriving DecidableEq

/-- An item on a subscriber's outbound stream (`Result<Summary, Status>`). -/
inductive GrpcItem where
  | summary (s : Summary)
  | status (code : StatusCode) (msg : String)
deriving DecidableEq

/-- The status message sent when the forwarder's receive loop ends. -/
def unavailable_msg : String := "The service failed to provide a response"

/-- One outcome of `rx.recv().await` on the broadcast receiver: a message, the
`Lagged` error after the subscriber fell behind a bounded bus, or `Closed`
after the sender dropped. -/
inductive RecvOutcome where
  | msg (m : BusMessage)
  | lagged (n : Nat)
  | closed
deriving DecidableEq

/-- Embeds `handle_subscription_stream`: `while let Ok(..) = rx.recv().await`
forwards data Summaries and maps bus errors to `Status::internal`; the loop
exits on the FIRST non-`Ok` receive — `Lagged` included — and then sends one
terminal `Status::unavailable`. -/
def handle_subscription_stream : List RecvOutcome → List GrpcItem
  | RecvOutcome.msg (BusMessage.ok s) :: rest =>
      GrpcItem.summary s :: handle_subscription_stream rest
  | RecvOutcome.msg (BusMessage.err e) :: rest =>
      GrpcItem.status StatusCode.internal e :: handle_subscription_stream rest
  | _ => [GrpcItem.status StatusCode.unavailable unavailable_msg]

/-- What a subscriber's receiver yields when it keeps up: every bus message in
order, then `Closed` once the aggregator task drops the sender. -/
def recv_all (msgs : List BusMessage) : List RecvOutcome :=
  msgs.map RecvOutcome.msg ++ [RecvOutcome.closed]

/-- How the forwarder renders one bus message on the outbound stream. -/
def bus_to_grpc : BusMessage → GrpcItem
  | BusMessage.ok s => GrpcItem.summary s
  | BusMessage.err e => GrpcItem.status StatusCode.internal e

/-- The transport view of an outbound stream: data Summaries are delivered in
order until the first error item, which terminates the RPC with that status;
`none` means the stream ended without a terminal status. -/
def client_view : List GrpcItem → List Summary × Option (StatusCode × String)
  | [] => ([], none)
  | GrpcItem.summary s :: rest => ((client_view rest).fst.cons s, (client_view rest).snd)
  | GrpcItem.status c m :: _ => ([], some (c, m))

/-- Substring test over the underlying character lists (decidable, used to
state what a message does or does not mention). -/
def str_contains (haystack needle : String) : Bool :=
  haystack.toList.tails.any (fun t => needle.toList.isPrefixOf t)

/-- The result handed back for one `BookSummary` call: which aggregator bus
the subscriber was attached to, and whether that aggregator was newly
created. -/
structure SubscribeResult where
  aggregator_id : Nat
  created_new : Bool
deriving DecidableEq

/-- The subscription registry: the `summary_receivers` map of
`OrderbookService`, with aggregators numbered in creation order. -/
structure RegistryState where
  entries : List (TradedPair × Nat)
  next_id : Nat
deriving DecidableEq

/-- Lookup in the `summary_receivers` map (`map_lock.get(&requested_pair)`). -/
def registry_lookup (st : RegistryState) (pair : TradedPair) : Option Nat :=
  (st.entries.find? (fun kv => traded_pair_eq kv.fst pair)).map Prod.snd

/-- The `InvalidArgument` message for a request without a pair. -/
def invalid_argument_msg : String := "This RPC requires traded_pair to be provided"

/-- Embeds `OrderbookService::book_summary` together with the main-task
request handler it notifies: an absent pair is rejected with
`InvalidArgument`; a pair already in `summary_receivers` is served by
resubscribing to the cached bus (no new aggregator); otherwise a fresh
aggregator is created and started and its receiver is cached.  No code path
ever removes an entry from the map. -/
def book_summary (st : RegistryState) (request : Option TradedPair) :
    Except (StatusCode × String) (RegistryState × SubscribeResult) :=
  match request with
  | none => Except.error (StatusCode.invalid_argument, invalid_argument_msg)
  | some pair =>
    match registry_lookup st pair with
    | some id =>
        Except.ok (st, { aggregator_id := id, created_new := false })
    | none =>
        Except.ok
          ({ entries := st.entries ++ [(pair, st.next_id)], next_id := st.next_id + 1 },
           { aggregator_id := st.next_id, created_new := true })

/-- A concrete traded pair used by the scenarios. -/
def pairEthBtc : TradedPair := { first := "ETH", second := "BTC" }

/-- An exchange whose every connection attempt succeeds. -/
def exConnects : Nat → Except String Unit := fun _ => Except.ok ()

/-- An exchange whose every connection attempt fails with the error `boom`. -/
def exBoom : Nat → Except String Unit := fun _ => Except.error "boom"

/-- C6 counterexample: with one exchange connected and the other failing all
its attempts with the error `boom`, the aggregator emits one error Summary,
but its message does not include the last adapter error — the per-attempt
errors are only printed, never threaded into the bus message. -/
theorem insufficient_sources_msg_omits_adapter_error :
    connected_count [exConnects, exBoom] = 1
    ∧ aggregator_start_emissions [exConnects, exBoom] pairEthBtc []
        = [BusMessage.err (insufficient_sources_msg pairEthBtc)]
    ∧ str_contains (insufficient_sources_msg pairEthBtc) "boom" = false :=
  ⟨by decide, by decide, by decide⟩

/-- C6 (amended): when fewer than two exchanges connect, the aggregator emits
exactly one error Summary — whose message names the traded pair but omits the
last adapter error — and terminates without emitting anything further; a
subscriber's stream delivers exactly one terminal `Internal` status carrying
that message and then closes. -/
theorem insufficient_sources_single_internal_error
    (exchanges : List (Nat → Except String Unit)) (pair : TradedPair)
    (events : List TickEvent)
    (h : connected_count exchanges < 2) :
    aggregator_start_emissions exchanges pair events
        = [BusMessage.err (insufficient_sources_msg pair)]
    ∧ (∃ pre, insufficient_sources_msg pair = pre ++ pair.display)
    ∧ client_view (handle_subscription_stream
        (recv_all (aggregator_start_emissions exchanges pair events)))
        = ([], some (StatusCode.internal, insufficient_sources_msg pair)) := by
  have he : aggregator_start_emissions exchanges pair events
      = [BusMessage.err (insufficient_sources_msg pair)] := by
    unfold aggregator_start_emissions
    rw [if_pos h]
  refine ⟨he,
    ⟨"Unable to connect to more than one exchange, aggregation not possible for ", rfl⟩, ?_⟩
  rw [he]
  rfl

/-- Witness for C6 (amended): two exchanges, both failing every attempt. -/
theorem insufficient_sources_single_internal_error_witness :
    connected_count [exBoom, exBoom] < 2
    ∧ (aggregator_start_emissions [exBoom, exBoom] pairEthBtc []
        = [BusMessage.err (insufficient_sources_msg pairEthBtc)]
      ∧ (∃ pre, insufficient_sources_msg pairEthBtc = pre ++ pairEthBtc.display)
      ∧ client_view (handle_subscription_stream
          (recv_all (aggregator_start_emissions [exBoom, exBoom] pairEthBtc [])))
          = ([], some (StatusCode.internal, insufficient_sources_msg pairEthBtc))) :=
  ⟨by decide,
   insufficient_sources_single_internal_error [exBoom, exBoom] pairEthBtc [] (by decide)⟩

/-- C7: a first subscription for a pair creates aggregator 0; that aggregator
terminates (here: only one exchange connects, so it emits its terminal error
and exits); no code path removes the registry entry, so the next subscription
for the same pair is attached to the terminated aggregator's bus (id 0,
`created_new = false`) instead of creating a fresh aggregator. -/
theorem registry_entry_persists_after_termination :
    aggregator_start_emissions [exConnects] pairEthBtc []
        = [BusMessage.err (insufficient_sources_msg pairEthBtc)]
    ∧ book_summary { entries := [], next_id := 0 } (some pairEthBtc)
        = Except.ok ({ entries := [(pairEthBtc, 0)], next_id := 1 },
                     { aggregator_id := 0, created_new := true })
    ∧ book_summary { entries := [(pairEthBtc, 0)], next_id := 1 } (some pairEthBtc)
        = Except.ok ({ entries := [(pairEthBtc, 0)], next_id := 1 },
                     { aggregator_id := 0, created_new := false }) :=
  ⟨by decide, rfl, rfl⟩

/-- A tiny Summary used as a bus payload in the lag scenarios. -/
def summaryA : Summary := { spread := 0, bids := [], asks := [] }

/-- A second tiny Summary used as a bus payload in the lag scenarios. -/
def summaryB : Summary := { spread := 1, bids := [], asks := [] }

/-- C8 counterexample: a subscriber that lags does NOT go on receiving later
Summaries — the forwarder's `while let Ok` loop exits on the `Lagged` receive
error, so the Summary published after the lag is never delivered and the
stream closes with a terminal `Unavailable` status. -/
theorem lagged_subscriber_stream_closes :
    handle_subscription_stream
        [RecvOutcome.msg (BusMessage.ok summaryA), RecvOutcome.lagged 3,
         RecvOutcome.msg (BusMessage.ok summaryB)]
      = [GrpcItem.summary summaryA,
         GrpcItem.status StatusCode.unavailable unavailable_msg]
    ∧ client_view (handle_subscription_stream
        [RecvOutcome.msg (BusMessage.ok summaryA), RecvOutcome.lagged 3,
         RecvOutcome.msg (BusMessage.ok summaryB)])
      = ([summaryA], some (StatusCode.unavailable, unavailable_msg)) :=
  ⟨by decide, by decide⟩

/-- C8 (amended): the producer's emissions never depend on subscriber state
(the bus drops at the slow subscriber), but a lagged subscriber's stream does
not continue: whatever was received before the `Lagged` error is forwarded,
everything after it is discarded, and the stream ends with one terminal
`Unavailable` status. -/
theorem lagged_subscriber_terminal_unavailable (pre : List BusMessage) (n : Nat)
    (rest : List RecvOutcome) :
    handle_subscription_stream (pre.map RecvOutcome.msg ++ RecvOutcome.lagged n :: rest)
      = pre.map bus_to_grpc ++ [GrpcItem.status StatusCode.unavailable unavailable_msg] := by
  induction pre with
  | nil => rfl
  | cons m pre ih =>
    cases m with
    | ok s => simpa [handle_subscription_stream, bus_to_grpc] using ih
    | err e => simpa [handle_subscription_stream, bus_to_grpc] using ih

/-- The empty-string traded pair of scenario S5. -/
def emptyPair : TradedPair := { first := "", second := "" }

/-- C9 counterexample: a request carrying the empty-string pair is NOT
rejected with `InvalidArgument` — field emptiness is never validated — and an
aggregator IS created for it. -/
theorem empty_pair_request_not_rejected :
    book_summary { entries := [], next_id := 0 } (some emptyPair)
      = Except.ok ({ entries := [(emptyPair, 0)], next_id := 1 },
                   { aggregator_id := 0, created_new := true }) :=
  rfl

/-- C9 (amended): a request with an ABSENT traded pair fails synchronously
with `InvalidArgument` and creates no aggregator; a request whose fields are
empty strings is treated like any other pair — when no entry exists yet, an
aggregator is created for it. -/
theorem book_summary_absent_pair_invalid_argument (st : RegistryState)
    (h : registry_lookup st emptyPair = none) :
    book_summary st none
        = Except.error (StatusCode.invalid_argument, invalid_argument_msg)
    ∧ book_summary st (some emptyPair)
        = Except.ok
            ({ entries := st.entries ++ [(emptyPair, st.next_id)],
               next_id := st.next_id + 1 },
             { aggregator_id := st.next_id, created_new := true }) := by
  refine ⟨rfl, ?_⟩
  simp [book_summary, h]

/-- Witness for C9 (amended) at the empty registry. -/
theorem book_summary_absent_pair_invalid_argument_witness :
    registry_lookup { entries := [], next_id := 0 } emptyPair = none
    ∧ (book_summary { entries := [], next_id := 0 } none
        = Except.error (StatusCode.invalid_argument, invalid_argument_msg)
      ∧ book_summary { entries := [], next_id := 0 } (some emptyPair)
        = Except.ok
            ({ entries := [] ++ [(emptyPair, 0)], next_id := 0 + 1 },
             { aggregator_id := 0, created_new := true })) :=
  ⟨rfl, book_summary_absent_pair_invalid_argument { entries := [], next_id := 0 } rfl⟩

/-- C10: the derived structural equality on `TradedPair` compares exactly the
two fields the hand-written `Hash` implementation feeds to the hasher, so
equal pairs hash identically under any hasher — `TradedPair` is a sound
`HashMap` key. -/
theorem traded_pair_eq_hash_congr (hashStr : Nat → String → Nat) (state : Nat)
    (p q : TradedPair) (h : traded_pair_eq p q = true) :
    p.hash_into hashStr state = q.hash_into hashStr state := by
  unfold traded_pair_eq at h
  simp only [Bool.and_eq_true, beq_iff_eq] at h
  unfold TradedPair.hash_into
  rw [h.1, h.2]

/-- Witness for C10 with a concrete hasher and equal pairs. -/
theorem traded_pair_eq_hash_congr_witness :
    traded_pair_eq { first := "One", second := "Two" } { first := "One", second := "Two" } = true
    ∧ TradedPair.hash_into (fun n s => n + s.length) 0 { first := "One", second := "Two" }
        = TradedPair.hash_into (fun n s => n + s.length) 0 { first := "One", second := "Two" } :=
  ⟨by decide,
   traded_pair_eq_hash_congr (fun n s => n + s.length) 0 _ _ (by decide)⟩

end OrderBookService
